import Mathlib

/-!
Verification of the emmett-google-pubsub message bus against its
specification. The TypeScript sources under src/messageBus are shallowly
embedded: pure functions become Lean functions, the stateful bus becomes
explicit state passing, thrown JavaScript errors become explicit error
values, and remote pub/sub calls become parameters describing the remote
outcome plus an effect trace.
-/

namespace EmmettGPubSub

/-! ## String helpers

JavaScript string primitives used by the sources: `String.prototype.includes`
and `String.prototype.toLowerCase` (the sources only ever lower-case ASCII
marker words, so ASCII lowering is the relevant behavior). -/

/-- Returns true when the first list is an initial run of the second list. -/
def charsLead : List Char → List Char → Bool
  | [], _ => true
  | _ :: _, [] => false
  | a :: as, b :: bs => a == b && charsLead as bs

/-- Returns true when the first list occurs as a contiguous run inside the second. -/
def charsFound : List Char → List Char → Bool
  | needle, [] => needle.isEmpty
  | needle, c :: rest => charsLead needle (c :: rest) || charsFound needle rest

/-- Embedding of JavaScript haystack.includes(pattern). -/
def strIncludes (s pattern : String) : Bool :=
  charsFound pattern.data s.data

/-- ASCII lower-casing of one character, as toLowerCase does on ASCII input. -/
def lowerChar (c : Char) : Char :=
  if 65 ≤ c.toNat ∧ c.toNat ≤ 90 then Char.ofNat (c.toNat + 32) else c

/-- Embedding of JavaScript s.toLowerCase() restricted to ASCII content. -/
def lowerStr (s : String) : String :=
  ⟨s.data.map lowerChar⟩

/-! ## Error values

A thrown JavaScript value, as far as src/messageBus/messageHandler.ts
inspects it: whether it is an Error instance, whether it is an EmmettError
instance, and its message string. -/

/-- A thrown JavaScript value as classified by shouldRetry. -/
inductive ErrorValue where
  | nonError
  | plainError (message : String)
  | emmettError (message : String)
deriving DecidableEq

/-- Embedding of the check error instanceof Error. -/
def ErrorValue.isError : ErrorValue → Bool
  | .nonError => false
  | _ => true

/-- Embedding of the check error instanceof EmmettError. -/
def ErrorValue.isEmmett : ErrorValue → Bool
  | .emmettError _ => true
  | _ => false

/-- The message property of the thrown value (empty for non-Error values,
which shouldRetry never reads). -/
def ErrorValue.message : ErrorValue → String
  | .nonError => ""
  | .plainError m => m
  | .emmettError m => m

/-- Embedding of shouldRetry from src/messageBus/messageHandler.ts: decide
whether an error should trigger a retry (nack) or be considered permanent
(ack). -/
def shouldRetry (error : ErrorValue) : Bool :=
  if !error.isError then
    -- Unknown error types - retry to be safe
    true
  else
    let errorMessage := lowerStr error.message
    -- Network/timeout errors - retry
    if strIncludes errorMessage "network" || strIncludes errorMessage "timeout" ||
        strIncludes errorMessage "econnrefused" || strIncludes errorMessage "enotfound" ||
        strIncludes errorMessage "unavailable" then
      true
    -- EmmettError and validation errors - do not retry (business logic errors)
    else if error.isEmmett then
      false
    else if strIncludes errorMessage "validation" || strIncludes errorMessage "invalid" ||
        strIncludes errorMessage "not found" || strIncludes errorMessage "already exists" then
      false
    else
      -- Default to retry for unknown errors
      true

/-! ## Marker vocabulary used by the claims -/

/-- The retriable marker substrings named by the specification. -/
def retriableMarkers : List String :=
  ["network", "timeout", "econnrefused", "enotfound", "unavailable"]

/-- The business/validation marker substrings named by the specification. -/
def businessMarkers : List String :=
  ["validation", "invalid", "not found", "already exists"]

/-- A message contains some retriable marker, case-insensitively. -/
def hasRetriableMarker (msg : String) : Bool :=
  retriableMarkers.any (fun mk => strIncludes (lowerStr msg) mk)

/-- A message contains some business/validation marker, case-insensitively. -/
def hasBusinessMarker (msg : String) : Bool :=
  businessMarkers.any (fun mk => strIncludes (lowerStr msg) mk)

/-- Characterization of shouldRetry on EmmettError instances: the network
style markers are tested first, so the result is exactly the presence of a
retriable marker. -/
theorem shouldRetry_emmettError (msg : String) :
    shouldRetry (.emmettError msg) = hasRetriableMarker msg := by
  have hmk : hasRetriableMarker msg =
      (strIncludes (lowerStr msg) "network" || strIncludes (lowerStr msg) "timeout" ||
        strIncludes (lowerStr msg) "econnrefused" || strIncludes (lowerStr msg) "enotfound" ||
        strIncludes (lowerStr msg) "unavailable") := by
    simp [hasRetriableMarker, retriableMarkers, List.any_cons, List.any_nil, Bool.or_assoc]
  rw [hmk]
  cases h : (strIncludes (lowerStr msg) "network" || strIncludes (lowerStr msg) "timeout" ||
      strIncludes (lowerStr msg) "econnrefused" || strIncludes (lowerStr msg) "enotfound" ||
      strIncludes (lowerStr msg) "unavailable") <;>
    simp only [shouldRetry, ErrorValue.isError, ErrorValue.isEmmett, ErrorValue.message, h,
      Bool.not_true, Bool.not_false, if_true, if_false, ite_true, ite_false] <;> decide

/-- Characterization of shouldRetry on plain Error instances: retriable
markers win, then business markers force false, otherwise retry. -/
theorem shouldRetry_plainError (msg : String) :
    shouldRetry (.plainError msg) =
      (hasRetriableMarker msg || !hasBusinessMarker msg) := by
  have hmk : hasRetriableMarker msg =
      (strIncludes (lowerStr msg) "network" || strIncludes (lowerStr msg) "timeout" ||
        strIncludes (lowerStr msg) "econnrefused" || strIncludes (lowerStr msg) "enotfound" ||
        strIncludes (lowerStr msg) "unavailable") := by
    simp [hasRetriableMarker, retriableMarkers, List.any_cons, List.any_nil, Bool.or_assoc]
  have hbz : hasBusinessMarker msg =
      (strIncludes (lowerStr msg) "validation" || strIncludes (lowerStr msg) "invalid" ||
        strIncludes (lowerStr msg) "not found" || strIncludes (lowerStr msg) "already exists") := by
    simp [hasBusinessMarker, businessMarkers, List.any_cons, List.any_nil, Bool.or_assoc]
  rw [hmk, hbz]
  cases h : (strIncludes (lowerStr msg) "network" || strIncludes (lowerStr msg) "timeout" ||
      strIncludes (lowerStr msg) "econnrefused" || strIncludes (lowerStr msg) "enotfound" ||
      strIncludes (lowerStr msg) "unavailable") <;>
    cases h2 : (strIncludes (lowerStr msg) "validation" || strIncludes (lowerStr msg) "invalid" ||
      strIncludes (lowerStr msg) "not found" || strIncludes (lowerStr msg) "already exists") <;>
    simp only [shouldRetry, ErrorValue.isError, ErrorValue.isEmmett, ErrorValue.message, h, h2,
      Bool.not_true, Bool.not_false, if_true, if_false, ite_true, ite_false,
      Bool.true_or, Bool.false_or, Bool.or_true, Bool.or_false] <;> decide

/-! ## JSON values and serialization (src/messageBus/serialization.ts)

The data and metadata trees of a message are JavaScript values that are
either JSON scalars, arrays, objects, or Date objects. A Date is modelled
by its canonical ISO-8601 string: the sources only ever observe a Date
through toISOString (injective on valid dates) and rebuild one through the
Date constructor applied to such a string, so identifying a Date with that
string is faithful for everything the code does with it. Object fields
model JavaScript objects, whose keys are unique. The JSON text layer is
elided: JSON.stringify followed by JSON.parse is the identity on the
marker-transformed tree (which contains no Date nodes), and the reviver
passed to JSON.parse is applied bottom-up to every parsed value, which is
what reviveAll does below. -/

/-- A JavaScript value inside the data or metadata tree of a message. -/
inductive JsValue where
  | null
  | bool (b : Bool)
  | num (n : Int)
  | str (s : String)
  | date (iso : String)
  | arr (xs : List JsValue)
  | obj (fields : List (String × JsValue))

/-- Association lookup on object fields, modelling JavaScript property access. -/
def assocGet {α : Type} : List (String × α) → String → Option α
  | [], _ => none
  | (k, v) :: rest, key => if k == key then some v else assocGet rest key

mutual

/-- Embedding of transformDatesToMarkers: recursively replace every Date by
a marker object carrying the tag Date and the ISO string. -/
def transformDatesToMarkers : JsValue → JsValue
  | .date iso => .obj [("__type", .str "Date"), ("value", .str iso)]
  | .arr xs => .arr (transformList xs)
  | .obj fs => .obj (transformFields fs)
  | v => v

/-- Element-wise transform of an array, as obj.map(transformDatesToMarkers). -/
def transformList : List JsValue → List JsValue
  | [] => []
  | x :: xs => transformDatesToMarkers x :: transformList xs

/-- Field-wise transform of an object, as the Object.entries loop. -/
def transformFields : List (String × JsValue) → List (String × JsValue)
  | [] => []
  | (k, v) :: fs => (k, transformDatesToMarkers v) :: transformFields fs

end

/-- Embedding of isDateMarker: an object whose __type property is the string
Date and whose value property is a string. Arrays and other values carry no
such properties. -/
def isDateMarker : JsValue → Bool
  | .obj fs =>
    (match assocGet fs "__type" with
      | some (.str s) => s == "Date"
      | _ => false) &&
    (match assocGet fs "value" with
      | some (.str _) => true
      | _ => false)
  | _ => false

/-- The string held in the value property of a date marker object (empty
when the argument is not a marker; dateReviver never reads it then). -/
def markerValue : JsValue → String
  | .obj fs =>
    match assocGet fs "value" with
    | some (.str s) => s
    | _ => ""
  | _ => ""

/-- Embedding of dateReviver: convert a date marker back to a Date and leave
every other value unchanged. -/
def dateReviver (value : JsValue) : JsValue :=
  if isDateMarker value then .date (markerValue value) else value

mutual

/-- The effect of JSON.parse with dateReviver on a value tree: the reviver
is applied to every value bottom-up. -/
def reviveAll : JsValue → JsValue
  | .arr xs => dateReviver (.arr (reviveList xs))
  | .obj fs => dateReviver (.obj (reviveFields fs))
  | v => dateReviver v

/-- Bottom-up revival of the elements of an array. -/
def reviveList : List JsValue → List JsValue
  | [] => []
  | x :: xs => reviveAll x :: reviveList xs

/-- Bottom-up revival of the fields of an object. -/
def reviveFields : List (String × JsValue) → List (String × JsValue)
  | [] => []
  | (k, v) :: fs => (k, reviveAll v) :: reviveFields fs

end

mutual

/-- A value tree contains no object that is itself shaped like a date
marker. Genuine Date leaves are allowed; it is only a literal object with a
__type of Date and a string value that is excluded. -/
def markerFree : JsValue → Bool
  | .arr xs => markerFreeList xs
  | .obj fs => !isDateMarker (.obj fs) && markerFreeFields fs
  | _ => true

/-- Marker freedom of every element of an array. -/
def markerFreeList : List JsValue → Bool
  | [] => true
  | x :: xs => markerFree x && markerFreeList xs

/-- Marker freedom of every field value of an object. -/
def markerFreeFields : List (String × JsValue) → Bool
  | [] => true
  | (_, v) :: fs => markerFree v && markerFreeFields fs

end

/-- Transforming the fields of an object commutes with property lookup. -/
theorem assocGet_transformFields (fs : List (String × JsValue)) (key : String) :
    assocGet (transformFields fs) key = (assocGet fs key).map transformDatesToMarkers := by
  induction fs with
  | nil => simp [transformFields, assocGet]
  | cons p rest ih =>
    obtain ⟨k, v⟩ := p
    by_cases h : (k == key) <;> simp [transformFields, assocGet, h, ih]

/-- The tag test of isDateMarker is unchanged by the Date transform, because
the transform maps strings to themselves and nothing else to a string. -/
theorem tagTest_map_transform (o : Option JsValue) :
    (match o.map transformDatesToMarkers with
      | some (.str s) => s == "Date"
      | _ => false) =
    (match o with
      | some (.str s) => s == "Date"
      | _ => false) := by
  cases o with
  | none => rfl
  | some v => cases v <;> simp [transformDatesToMarkers]

/-- The string-valued test of isDateMarker is unchanged by the Date transform. -/
theorem valTest_map_transform (o : Option JsValue) :
    (match o.map transformDatesToMarkers with
      | some (.str _) => true
      | _ => false) =
    (match o with
      | some (.str _) => true
      | _ => false) := by
  cases o with
  | none => rfl
  | some v => cases v <;> simp [transformDatesToMarkers]

/-- An object is marker-shaped after the Date transform exactly when it was
marker-shaped before. -/
theorem isDateMarker_transformFields (fs : List (String × JsValue)) :
    isDateMarker (.obj (transformFields fs)) = isDateMarker (.obj fs) := by
  simp only [isDateMarker, assocGet_transformFields, tagTest_map_transform, valTest_map_transform]

mutual

/-- Round trip of the value transform: on trees free of literal marker
objects, reviving after transforming restores the tree, Dates included. -/
theorem reviveAll_transform : ∀ (v : JsValue), markerFree v = true →
    reviveAll (transformDatesToMarkers v) = v
  | .null, _ => by simp [transformDatesToMarkers, reviveAll, dateReviver, isDateMarker]
  | .bool b, _ => by simp [transformDatesToMarkers, reviveAll, dateReviver, isDateMarker]
  | .num n, _ => by simp [transformDatesToMarkers, reviveAll, dateReviver, isDateMarker]
  | .str s, _ => by simp [transformDatesToMarkers, reviveAll, dateReviver, isDateMarker]
  | .date iso, _ => by
      simp [transformDatesToMarkers, reviveAll, reviveFields, dateReviver, isDateMarker,
        markerValue, assocGet]
  | .arr xs, h => by
      have hx : reviveList (transformList xs) = xs :=
        reviveList_transformList xs (by simpa [markerFree] using h)
      simp [transformDatesToMarkers, reviveAll, dateReviver, isDateMarker, hx]
  | .obj fs, h => by
      have h2 : isDateMarker (.obj fs) = false ∧ markerFreeFields fs = true := by
        simpa [markerFree, Bool.and_eq_true] using h
      have hf : reviveFields (transformFields fs) = fs :=
        reviveFields_transformFields fs h2.2
      simp [transformDatesToMarkers, reviveAll, dateReviver, hf, h2.1]

/-- Element-wise round trip for arrays. -/
theorem reviveList_transformList : ∀ (xs : List JsValue), markerFreeList xs = true →
    reviveList (transformList xs) = xs
  | [], _ => rfl
  | x :: xs, h => by
      have h2 : markerFree x = true ∧ markerFreeList xs = true := by
        simpa [markerFreeList, Bool.and_eq_true] using h
      simp [transformList, reviveList, reviveAll_transform x h2.1,
        reviveList_transformList xs h2.2]

/-- Field-wise round trip for objects. -/
theorem reviveFields_transformFields : ∀ (fs : List (String × JsValue)),
    markerFreeFields fs = true → reviveFields (transformFields fs) = fs
  | [], _ => rfl
  | (k, v) :: fs, h => by
      have h2 : markerFree v = true ∧ markerFreeFields fs = true := by
        simpa [markerFreeFields, Bool.and_eq_true] using h
      simp [transformFields, reviveFields, reviveAll_transform v h2.1,
        reviveFields_transformFields fs h2.2]

end

/-! ## Messages and the wire envelope -/

/-- Whether a message travels as a command or as an event. -/
inductive MessageKind where
  | command
  | event
deriving DecidableEq

/-- A logical Emmett message: type, data, optional metadata. The emmett
Message type has no timestamp and no messageId field; those exist only on
the wire envelope below. -/
structure Msg where
  type : String
  data : JsValue
  metadata : Option JsValue

/-- Embedding of the PubSubMessageEnvelope wire form from
src/messageBus/types.ts. -/
structure PubSubMessageEnvelope where
  type : String
  kind : MessageKind
  data : JsValue
  metadata : Option JsValue
  timestamp : String
  messageId : String

/-- Embedding of getMessageKind from serialization.ts: a type whose
lower-cased name contains the word command is a command, else an event. -/
def getMessageKind (message : Msg) : MessageKind :=
  if strIncludes (lowerStr message.type) "command" then .command else .event

/-- Embedding of serialize from serialization.ts at the value level. The
producer-side clock reading and the generated UUID enter as parameters
nowIso and newId; JSON.stringify of the envelope is elided because the
stringify/parse pair is the identity on the transformed tree. A metadata
field that is absent is dropped from the wire object, which Option models. -/
def serialize (message : Msg) (nowIso newId : String) : PubSubMessageEnvelope :=
  { type := message.type
    kind := getMessageKind message
    data := transformDatesToMarkers message.data
    metadata := message.metadata.map transformDatesToMarkers
    timestamp := nowIso
    messageId := newId }

/-- JavaScript truthiness of a value, used by the deserialize metadata
check. Objects, arrays and Dates are always truthy. -/
def truthy : JsValue → Bool
  | .null => false
  | .bool b => b
  | .num n => n != 0
  | .str s => s != ""
  | _ => true

/-- Embedding of deserialize from serialization.ts: parse with the date
reviver (reviveAll) and reassemble only type, data and conditionally
metadata; the envelope timestamp and messageId are not copied onto the
result, which the Msg result type records by having no such fields. -/
def deserialize (envelope : PubSubMessageEnvelope) : Msg :=
  { type := envelope.type
    data := reviveAll envelope.data
    metadata :=
      match envelope.metadata with
      | none => none
      | some v =>
        let revived := reviveAll v
        if truthy revived then some revived else none }

/-- Root-level discriminator: whether a value is a Date object. -/
def isDateValue : JsValue → Bool
  | .date _ => true
  | _ => false

/-- A message whose data holds a literal marker-shaped object (never built
from a Date) next to a genuine Date. -/
def markerLiteralMsg : Msg :=
  { type := "OrderShipped"
    data := .obj [("note", .obj [("__type", .str "Date"), ("value", .str "tomorrow")]),
                  ("when", .date "2024-01-01T00:00:00.000Z")]
    metadata := none }

/-- Discriminator at the path data.note: is that field a Date object. -/
def dataNoteIsDate (m : Msg) : Bool :=
  match m.data with
  | .obj fs =>
    match assocGet fs "note" with
    | some (.date _) => true
    | _ => false
  | _ => false

/-- Claim C2, counterexample: the round trip is not the identity on every
message: a literal object of the marker shape in the data tree comes back
as a Date object, so deserialize after serialize changes the message. -/
theorem claim2_counterexample :
    deserialize (serialize markerLiteralMsg "2024-01-02T00:00:00.000Z" "uuid-1") ≠
      markerLiteralMsg :=
  fun h => Bool.noConfusion (congrArg dataNoteIsDate h)

/-- Claim C2, amended: for every message whose data and metadata trees hold
no literal marker-shaped object, and whose metadata (when present) is a
truthy value as the emmett record type guarantees, deserialize after
serialize restores the message exactly on type, data and metadata, with
Dates restored as Dates; the result is a Msg, a type carrying neither the
envelope timestamp nor the messageId. -/
theorem claim2_roundTrip (m : Msg) (nowIso newId : String)
    (hdata : markerFree m.data = true)
    (hmeta : ∀ v, m.metadata = some v → markerFree v = true ∧ truthy v = true) :
    deserialize (serialize m nowIso newId) = m := by
  cases m with
  | mk t d md =>
    cases md with
    | none => simp [serialize, deserialize, reviveAll_transform d hdata]
    | some v =>
      obtain ⟨hv, htr⟩ := hmeta v rfl
      simp [serialize, deserialize, reviveAll_transform d hdata,
        reviveAll_transform v hv, htr]

/-- Witness for the amended claim C2 at a message with nested Dates in both
data and metadata. -/
theorem claim2_roundTrip_witness :
    deserialize
        (serialize
          { type := "OrderShipped"
            data := .obj [("when", .date "2024-01-01T00:00:00.000Z"),
                          ("items", .arr [.num 2, .date "2023-06-01T12:30:00.000Z"])]
            metadata := some (.obj [("seen", .date "2024-02-02T08:00:00.000Z")]) }
          "2024-01-02T00:00:00.000Z" "uuid-2") =
      { type := "OrderShipped"
        data := .obj [("when", .date "2024-01-01T00:00:00.000Z"),
                      ("items", .arr [.num 2, .date "2023-06-01T12:30:00.000Z"])]
        metadata := some (.obj [("seen", .date "2024-02-02T08:00:00.000Z")]) } :=
  claim2_roundTrip _ "2024-01-02T00:00:00.000Z" "uuid-2" (by decide)
    (fun v hv => by
      injection hv with hv
      subst hv
      exact ⟨by decide, by decide⟩)

/-- Claim C10: the reviver turns every parsed object of the marker shape
into a Date, whether or not it came from a Date; consequently there is a
message holding such a literal marker-shaped object in its data for which
the serialize/deserialize round trip is not the identity, whatever envelope
timestamp and id are drawn. -/
theorem claim10_markerShadowing :
    (∀ (fs : List (String × JsValue)) (s : String),
        assocGet fs "__type" = some (.str "Date") →
        assocGet fs "value" = some (.str s) →
        dateReviver (.obj fs) = .date s)
    ∧ (∃ m : Msg, isDateMarker m.data = true ∧
        ∀ nowIso newId, deserialize (serialize m nowIso newId) ≠ m) := by
  constructor
  · intro fs s h1 h2
    simp [dateReviver, isDateMarker, markerValue, h1, h2]
  · refine ⟨{ type := "OrderShipped",
              data := .obj [("__type", .str "Date"), ("value", .str "tomorrow")],
              metadata := none }, by decide, ?_⟩
    intro nowIso newId h
    exact Bool.noConfusion (congrArg (fun m => isDateValue m.data) h)

/-- Witness for claim C10 applying the reviver clause at a concrete
marker-shaped object. -/
theorem claim10_markerShadowing_witness :
    dateReviver (.obj [("__type", .str "Date"), ("value", .str "2020-05-05")]) =
      .date "2020-05-05" :=
  claim10_markerShadowing.1 [("__type", .str "Date"), ("value", .str "2020-05-05")]
    "2020-05-05" rfl rfl

/-! ## Inbound dispatch (src/messageBus/messageHandler.ts)

A handler invocation either returns normally or throws a value; for a fixed
delivered message each registered handler therefore contributes one outcome,
and the handler list is embedded as the list of these outcomes in
registration order. Dispatch returns the ack or nack decision together with
the zero-based indices of the handlers that were invoked, in invocation
order. Deserialization of the raw payload either succeeds or throws, which
the deser parameter records. -/

/-- The result written back to the transport for one delivery. -/
inductive AckOrNack where
  | ack
  | nack
deriving DecidableEq

/-- What one handler does when invoked on the delivered message. -/
inductive HandlerOutcome where
  | ok
  | threw (e : ErrorValue)
deriving DecidableEq

/-- The catch-branch of both dispatch functions: nack retriable errors, ack
permanent ones. -/
def classifyCaught (e : ErrorValue) : AckOrNack :=
  if shouldRetry e then .nack else .ack

/-- The message of the EmmettError thrown when no command handler is
registered. -/
def noHandlerMessage (commandType : String) : String :=
  "No handler registered for command " ++ commandType ++ "!"

/-- The message of the EmmettError thrown when several command handlers are
registered. -/
def multipleHandlersMessage (commandType : String) : String :=
  "Multiple handlers registered for command " ++ commandType ++
    ". Commands must have exactly one handler."

/-- Embedding of handleCommandMessage: missing or empty handler list throws
the no-handler EmmettError, a list of two or more throws the
multiple-handlers EmmettError, both caught and classified; with exactly one
handler the payload is deserialized and the handler invoked, its thrown
error classified by the catch branch. -/
def handleCommandMessage (commandHandlers : Option (List HandlerOutcome))
    (deser : Except ErrorValue Unit) (commandType : String) :
    AckOrNack × List Nat :=
  match commandHandlers with
  | none => (classifyCaught (.emmettError (noHandlerMessage commandType)), [])
  | some [] => (classifyCaught (.emmettError (noHandlerMessage commandType)), [])
  | some [h] =>
    match deser with
    | .error e => (classifyCaught e, [])
    | .ok _ =>
      match h with
      | .ok => (.ack, [0])
      | .threw e => (classifyCaught e, [0])
  | some (_ :: _ :: _) =>
    (classifyCaught (.emmettError (multipleHandlersMessage commandType)), [])

/-- The sequential handler walk of handleEventMessage, carrying the index
of the next handler: a retriable throw stops the walk with nack, any other
outcome continues, and a completed walk yields ack. -/
def eventLoop : List HandlerOutcome → Nat → AckOrNack × List Nat
  | [], _ => (.ack, [])
  | o :: rest, i =>
    match o with
    | .ok =>
      let r := eventLoop rest (i + 1)
      (r.1, i :: r.2)
    | .threw e =>
      if shouldRetry e then (.nack, [i])
      else
        let r := eventLoop rest (i + 1)
        (r.1, i :: r.2)

/-- Embedding of handleEventMessage: no or zero handlers acks immediately
with no invocation; otherwise the payload is deserialized (a throw being
classified by the outer catch) and the handlers walked sequentially. -/
def handleEventMessage (eventHandlers : Option (List HandlerOutcome))
    (deser : Except ErrorValue Unit) : AckOrNack × List Nat :=
  match eventHandlers with
  | none => (.ack, [])
  | some [] => (.ack, [])
  | some hs =>
    match deser with
    | .error e => (classifyCaught e, [])
    | .ok _ => eventLoop hs 0

/-- Index of the first handler outcome that classifies as retriable. -/
def firstRetriableIdx : List HandlerOutcome → Option Nat
  | [] => none
  | o :: rest =>
    match o with
    | .ok => (firstRetriableIdx rest).map (· + 1)
    | .threw e =>
      if shouldRetry e then some 0 else (firstRetriableIdx rest).map (· + 1)

/-- Behavior of the handler walk from an arbitrary start index. -/
theorem eventLoop_spec (hs : List HandlerOutcome) (k : Nat) :
    (∀ i, firstRetriableIdx hs = some i →
        eventLoop hs k = (.nack, List.range' k (i + 1)))
    ∧ (firstRetriableIdx hs = none →
        eventLoop hs k = (.ack, List.range' k hs.length)) := by
  induction hs generalizing k with
  | nil => simp [firstRetriableIdx, eventLoop, List.range']
  | cons o rest ih =>
    cases o with
    | ok =>
      constructor
      · intro i hi
        simp only [firstRetriableIdx] at hi
        cases hr : firstRetriableIdx rest with
        | none => simp [hr] at hi
        | some j =>
          rw [hr, Option.map_some'] at hi
          obtain rfl : j + 1 = i := by injection hi
          have := (ih (k + 1)).1 j hr
          simp [eventLoop, this, List.range']
      · intro hn
        simp only [firstRetriableIdx] at hn
        cases hr : firstRetriableIdx rest with
        | none =>
          have := (ih (k + 1)).2 hr
          simp [eventLoop, this, List.range', List.length_cons]
        | some j => simp [hr] at hn
    | threw e =>
      by_cases hsr : shouldRetry e
      · constructor
        · intro i hi
          simp only [firstRetriableIdx, hsr, if_pos] at hi
          obtain rfl : (0 : Nat) = i := by injection hi
          simp [eventLoop, hsr, List.range']
        · intro hn
          simp [firstRetriableIdx, hsr] at hn
      · constructor
        · intro i hi
          simp only [firstRetriableIdx, hsr, if_neg, not_false_eq_true] at hi
          cases hr : firstRetriableIdx rest with
          | none => simp [hr] at hi
          | some j =>
            rw [hr, Option.map_some'] at hi
            obtain rfl : j + 1 = i := by injection hi
            have := (ih (k + 1)).1 j hr
            simp [eventLoop, hsr, this, List.range']
        · intro hn
          simp only [firstRetriableIdx, hsr, if_neg, not_false_eq_true] at hn
          cases hr : firstRetriableIdx rest with
          | none =>
            have := (ih (k + 1)).2 hr
            simp [eventLoop, hsr, this, List.range', List.length_cons]
          | some j => simp [hr] at hn

/-- Claim C3: event dispatch acks with no invocation when no handler is
registered; otherwise handlers run sequentially in registration order, the
first retriable throw stops the walk immediately with nack (exactly the
handlers up to and including the failing one ran), and when no retriable
throw occurs the full list runs and the delivery acks. -/
theorem claim3_eventDispatch (hs : List HandlerOutcome) :
    (handleEventMessage none (.ok ()) = (.ack, [])
      ∧ handleEventMessage (some []) (.ok ()) = (.ack, []))
    ∧ (∀ i, firstRetriableIdx hs = some i →
        handleEventMessage (some hs) (.ok ()) = (.nack, List.range (i + 1)))
    ∧ (firstRetriableIdx hs = none →
        handleEventMessage (some hs) (.ok ()) = (.ack, List.range hs.length)) := by
  refine ⟨⟨rfl, rfl⟩, ?_, ?_⟩
  · intro i hi
    cases hs with
    | nil => simp [firstRetriableIdx] at hi
    | cons o rest =>
      have := (eventLoop_spec (o :: rest) 0).1 i hi
      simpa [handleEventMessage, List.range_eq_range'] using this
  · intro hn
    cases hs with
    | nil => simp [handleEventMessage, List.range_zero]
    | cons o rest =>
      have := (eventLoop_spec (o :: rest) 0).2 hn
      simpa [handleEventMessage, List.range_eq_range'] using this

/-- Witness for claim C3: a walk where handler 0 throws a permanent
(validation) error and handler 1 throws a retriable (timeout) error stops
after handler 1 with nack; a walk with no retriable throw acks having run
every handler. -/
theorem claim3_eventDispatch_witness :
    handleEventMessage
        (some [.threw (.plainError "validation failed"), .threw (.plainError "timeout"), .ok])
        (.ok ()) = (.nack, List.range 2)
    ∧ handleEventMessage (some [.ok, .threw (.plainError "validation failed")])
        (.ok ()) = (.ack, List.range 2) :=
  ⟨(claim3_eventDispatch
      [.threw (.plainError "validation failed"), .threw (.plainError "timeout"), .ok]).2.1
      1 (by decide),
    (claim3_eventDispatch [.ok, .threw (.plainError "validation failed")]).2.2 (by decide)⟩

/-- Claim C1, counterexample: a command delivery with an empty handler list
is acked, not nacked as the claim states: the thrown no-handler EmmettError
contains no retriable marker, and EmmettError classifies as permanent. The
unit tests of the repository assert this ack explicitly. -/
theorem claim1_counterexample :
    (handleCommandMessage (some []) (.ok ()) "TestCommand").1 ≠ .nack := by
  decide

/-- Claim C1, amended: for every command type whose thrown dispatch error
messages contain no retriable marker substring, a delivery with an empty or
missing handler list is acked, a delivery with two or more handlers is
acked, and in neither case is any handler invoked. -/
theorem claim1_commandDispatch (commandType : String) (deser : Except ErrorValue Unit)
    (h1 : hasRetriableMarker (noHandlerMessage commandType) = false)
    (h2 : hasRetriableMarker (multipleHandlersMessage commandType) = false) :
    (handleCommandMessage none deser commandType = (.ack, [])
      ∧ handleCommandMessage (some []) deser commandType = (.ack, []))
    ∧ ∀ (a b : HandlerOutcome) (rest : List HandlerOutcome),
        handleCommandMessage (some (a :: b :: rest)) deser commandType = (.ack, []) := by
  have hn : classifyCaught (.emmettError (noHandlerMessage commandType)) = .ack := by
    simp [classifyCaught, shouldRetry_emmettError, h1]
  have hm : classifyCaught (.emmettError (multipleHandlersMessage commandType)) = .ack := by
    simp [classifyCaught, shouldRetry_emmettError, h2]
  refine ⟨⟨?_, ?_⟩, ?_⟩
  · simp [handleCommandMessage, hn]
  · simp [handleCommandMessage, hn]
  · intro a b rest
    simp [handleCommandMessage, hm]

/-- Witness for the amended claim C1 at the command type TestCommand. -/
theorem claim1_commandDispatch_witness :
    handleCommandMessage (some []) (.ok ()) "TestCommand" = (.ack, [])
    ∧ handleCommandMessage (some [.ok, .ok]) (.ok ()) "TestCommand" = (.ack, []) :=
  ⟨(claim1_commandDispatch "TestCommand" (.ok ()) (by decide) (by decide)).1.2,
    (claim1_commandDispatch "TestCommand" (.ok ()) (by decide) (by decide)).2 .ok .ok []⟩

/-- Claim C4, counterexample: the claim states that shouldRetry returns
false whenever the error is an EmmettError, but an EmmettError whose
message contains a network marker is classified retriable, because the
marker tests run before the EmmettError test. -/
theorem claim4_counterexample :
    shouldRetry (.emmettError "Network timeout") ≠ false := by
  decide

/-- Claim C4, amended: shouldRetry returns true for every non-Error value;
for Error values the retriable markers are tested first and force true for
plain and Emmett errors alike; an EmmettError without a retriable marker is
non-retriable; a plain error without a retriable marker but with a business
marker is non-retriable; and a plain error with no marker at all defaults
to retriable. -/
theorem claim4_shouldRetry (msg : String) :
    (shouldRetry .nonError = true)
    ∧ (hasRetriableMarker msg = true →
        shouldRetry (.plainError msg) = true ∧ shouldRetry (.emmettError msg) = true)
    ∧ (hasRetriableMarker msg = false → shouldRetry (.emmettError msg) = false)
    ∧ (hasRetriableMarker msg = false → hasBusinessMarker msg = true →
        shouldRetry (.plainError msg) = false)
    ∧ (hasRetriableMarker msg = false → hasBusinessMarker msg = false →
        shouldRetry (.plainError msg) = true) := by
  refine ⟨rfl, ?_, ?_, ?_, ?_⟩
  · intro h
    simp [shouldRetry_plainError, shouldRetry_emmettError, h]
  · intro h
    simp [shouldRetry_emmettError, h]
  · intro h hb
    simp [shouldRetry_plainError, h, hb]
  · intro h hb
    simp [shouldRetry_plainError, h, hb]

/-- Witness for the amended claim C4 across the marker cases. -/
theorem claim4_shouldRetry_witness :
    shouldRetry (.plainError "Connection timeout reached") = true
    ∧ shouldRetry (.emmettError "aggregate not found") = false
    ∧ shouldRetry (.plainError "Validation failed for items") = false
    ∧ shouldRetry (.plainError "something odd happened") = true :=
  ⟨((claim4_shouldRetry "Connection timeout reached").2.1 (by decide)).1,
    (claim4_shouldRetry "aggregate not found").2.2.1 (by decide),
    (claim4_shouldRetry "Validation failed for items").2.2.2.1 (by decide) (by decide),
    (claim4_shouldRetry "something odd happened").2.2.2.2 (by decide) (by decide)⟩

/-! ## Topic and subscription naming (src/messageBus/topicManager.ts) -/

/-- Embedding of getCommandTopicName. -/
def getCommandTopicName (commandType : String) (pre : String) : String :=
  pre ++ "-cmd-" ++ commandType

/-- Embedding of getEventTopicName. -/
def getEventTopicName (eventType : String) (pre : String) : String :=
  pre ++ "-evt-" ++ eventType

/-- Embedding of getCommandSubscriptionName. -/
def getCommandSubscriptionName (commandType instanceId pre : String) : String :=
  pre ++ "-cmd-" ++ commandType ++ "-" ++ instanceId

/-- Embedding of getEventSubscriptionName. -/
def getEventSubscriptionName (eventType subscriptionId pre : String) : String :=
  pre ++ "-evt-" ++ eventType ++ "-" ++ subscriptionId

/-! ## Bus registration state (src/messageBus/pubsubMessageBus.ts)

The closure state of getPubSubMessageBus that registration touches: the
shared handlers map, the per-subscription handler map, the subscription id
lists per event type, the command and event type sets, and the started
flag. JavaScript Map and Set preserve insertion order, which association
lists and append-if-absent model. Handlers are identified by opaque
numbers. The asynchronous provisioning kicked off by a registration that
happens while started only touches the remote transport and the listener
wiring, never these registries, so it does not appear in the state
transition. -/

/-- Update or append one key of an association-list map, as Map.set does. -/
def assocSet {α : Type} (m : List (String × α)) (k : String) (v : α) :
    List (String × α) :=
  if (assocGet m k).isSome then
    m.map (fun p => if p.1 == k then (k, v) else p)
  else
    m ++ [(k, v)]

/-- Append-if-absent, as Set.add does. -/
def setAdd (s : List String) (x : String) : List String :=
  if s.contains x then s else s ++ [x]

/-- The registration-relevant state of one bus instance. -/
structure BusState where
  handlers : List (String × List Nat)
  subscriptionHandlers : List (String × Nat)
  eventSubscriptionIds : List (String × List String)
  commandTypes : List String
  eventTypes : List String
  started : Bool

/-- A bus as returned by getPubSubMessageBus, before any registration. -/
def emptyBus : BusState :=
  { handlers := []
    subscriptionHandlers := []
    eventSubscriptionIds := []
    commandTypes := []
    eventTypes := []
    started := false }

/-- The message of the EmmettError thrown on a duplicate command handler
registration. -/
def duplicateHandlerMessage (commandType : String) : String :=
  "Handler already registered for command " ++ commandType ++
    ". Commands must have exactly one handler."

/-- Embedding of handle() for one command type: throw the duplicate-handler
EmmettError when the shared handlers map already has the type, otherwise
record the type as a command and store the singleton handler list. The
returned Option String is the thrown EmmettError message, none meaning
normal return; a throw leaves the state as it was. -/
def handleStep (st : BusState) (handlerId : Nat) (commandType : String) :
    BusState × Option String :=
  if (assocGet st.handlers commandType).isSome then
    (st, some (duplicateHandlerMessage commandType))
  else
    ({ st with
        commandTypes := setAdd st.commandTypes commandType
        handlers := assocSet st.handlers commandType [handlerId] }, none)

/-- Embedding of subscribe() for one event type: record the type as an
event, store the handler under a fresh subscription id, append the handler
to the shared handlers map entry of the type, and append the subscription
id to the list of the type. It never throws. -/
def subscribeStep (st : BusState) (handlerId : Nat) (subscriptionId eventType : String) :
    BusState :=
  { st with
      eventTypes := setAdd st.eventTypes eventType
      subscriptionHandlers := st.subscriptionHandlers ++ [(subscriptionId, handlerId)]
      handlers := assocSet st.handlers eventType
        ((assocGet st.handlers eventType).getD [] ++ [handlerId])
      eventSubscriptionIds := assocSet st.eventSubscriptionIds eventType
        ((assocGet st.eventSubscriptionIds eventType).getD [] ++ [subscriptionId]) }

/-- Claim C6: registering a command handler for a type that already has a
handlers-map entry throws the duplicate-handler EmmettError synchronously,
whether the bus is started or not, and leaves the state, in particular the
existing entry of that type, unchanged. -/
theorem claim6_duplicateHandler (st : BusState) (handlerId : Nat) (t : String)
    (l : List Nat) (h : assocGet st.handlers t = some l) (b : Bool) :
    handleStep { st with started := b } handlerId t
        = ({ st with started := b }, some (duplicateHandlerMessage t))
    ∧ assocGet (handleStep { st with started := b } handlerId t).1.handlers t = some l := by
  constructor
  · simp [handleStep, h]
  · simp [handleStep, h]

/-- Witness for claim C6 on a bus that already holds a handler for type T. -/
theorem claim6_duplicateHandler_witness :
    handleStep { emptyBus with handlers := [("T", [0])], started := true } 1 "T"
        = ({ emptyBus with handlers := [("T", [0])], started := true },
            some (duplicateHandlerMessage "T"))
    ∧ assocGet (handleStep { emptyBus with handlers := [("T", [0])], started := true }
          1 "T").1.handlers "T" = some [0] :=
  claim6_duplicateHandler { emptyBus with handlers := [("T", [0])] } 1 "T" [0] rfl true

/-- Claim C9: commands and events share one handlers map. Registering an
event subscriber for a type and then a command handler for the same type
throws the duplicate-command-handler error and leaves the state unchanged,
although the type was only ever an event; registering a command handler and
then an event subscriber never throws and leaves the shared map entry of
the type with both handlers. -/
theorem claim9_sharedHandlersMap :
    (∀ (t subscriptionId : String) (h1 h2 : Nat),
        handleStep (subscribeStep emptyBus h1 subscriptionId t) h2 t
          = (subscribeStep emptyBus h1 subscriptionId t,
              some (duplicateHandlerMessage t)))
    ∧ (∀ (t subscriptionId : String) (h1 h2 : Nat),
        assocGet (subscribeStep (handleStep emptyBus h1 t).1 h2 subscriptionId t).handlers t
          = some [h1, h2]) := by
  constructor
  · intro t subscriptionId h1 h2
    simp [handleStep, subscribeStep, emptyBus, assocSet, assocGet, setAdd]
  · intro t subscriptionId h1 h2
    simp [handleStep, subscribeStep, emptyBus, assocSet, assocGet, setAdd]

/-- Witness for claim C9 at the type OrderPlaced with handlers 0 and 1. -/
theorem claim9_sharedHandlersMap_witness :
    handleStep (subscribeStep emptyBus 0 "sub-1" "OrderPlaced") 1 "OrderPlaced"
        = (subscribeStep emptyBus 0 "sub-1" "OrderPlaced",
            some (duplicateHandlerMessage "OrderPlaced"))
    ∧ assocGet (subscribeStep (handleStep emptyBus 0 "OrderPlaced").1 1 "sub-2"
          "OrderPlaced").handlers "OrderPlaced" = some [0, 1] :=
  ⟨claim9_sharedHandlersMap.1 "OrderPlaced" "sub-1" 0 1,
    claim9_sharedHandlersMap.2 "OrderPlaced" "sub-2" 0 1⟩

/-! ## Publishing (src/messageBus/pubsubMessageBus.ts)

The send and publish methods both delegate to publishMessage, which first
runs ensureStarted and only then names the topic and talks to the remote
transport. The remote interaction is embedded as the ordered trace of
remote calls the function performs, together with its result; the
existence answer of the remote topic is a parameter. Remote create and
publish calls are modelled as succeeding, which is enough for the claims:
what is verified is what happens before any remote call is reached. -/

/-- One remote pub/sub interaction of publishMessage. -/
inductive RemoteEffect where
  | topicExistsCheck (topicName : String)
  | topicCreate (topicName : String)
  | topicPublish (topicName : String)
deriving DecidableEq

/-- The precondition error of ensureStarted. -/
def notStartedMessage : String :=
  "Message bus is not started. Call start() before sending/publishing messages."

/-- Embedding of publishMessage: ensureStarted gates everything; then the
topic name is derived from the message kind, existence is checked, the
topic is created when absent and auto-creation is on (an error is raised
when absent and auto-creation is off), and the serialized message is
published. -/
def publishMessage (started autoCreateResources topicExists : Bool)
    (messageType : String) (kind : MessageKind) (pre : String) :
    List RemoteEffect × Except String Unit :=
  if !started then
    ([], .error notStartedMessage)
  else
    let topicName :=
      match kind with
      | .command => getCommandTopicName messageType pre
      | .event => getEventTopicName messageType pre
    let kindName :=
      match kind with
      | .command => "command"
      | .event => "event"
    if !autoCreateResources then
      if !topicExists then
        ([.topicExistsCheck topicName],
          .error ("Failed to publish " ++ kindName ++ " " ++ messageType ++ " to topic " ++
            topicName ++ ": Topic " ++ topicName ++
            " does not exist and autoCreateResources is disabled"))
      else
        ([.topicExistsCheck topicName, .topicPublish topicName], .ok ())
    else
      if !topicExists then
        ([.topicExistsCheck topicName, .topicCreate topicName, .topicPublish topicName],
          .ok ())
      else
        ([.topicExistsCheck topicName, .topicPublish topicName], .ok ())

/-- Claim C7: with the bus not started, publishMessage fails with the
precondition error for both kinds and any configuration, and its remote
trace is empty: no topic lookup, creation or publish happens. -/
theorem claim7_requireStarted (autoCreateResources topicExists : Bool)
    (messageType pre : String) (kind : MessageKind) :
    publishMessage false autoCreateResources topicExists messageType kind pre
      = ([], .error notStartedMessage) := by
  simp [publishMessage]

/-- Witness for claim C7: sending the command AddProductItem on a
not-started bus with auto-creation on and the topic existing remotely. -/
theorem claim7_requireStarted_witness :
    publishMessage false true true "AddProductItem" .command "emmett"
      = ([], .error notStartedMessage) :=
  claim7_requireStarted true true "AddProductItem" "emmett" .command

/-! ## Scheduler (src/messageBus/scheduler.ts)

The scheduler compares Dates only through their numeric time value, so a
Date is embedded here as its epoch milliseconds. The scheduler never
inspects the message it carries, so the message type is a parameter. -/

/-- Embedding of ScheduleOptions: a relative delay or an absolute instant
(the at variant). -/
inductive ScheduleOptions where
  | afterInMs (ms : Int)
  | atTime (t : Int)
deriving DecidableEq

/-- Embedding of calculateScheduledTime, with the clock reading of the call
as a parameter. -/
def calculateScheduledTime (nowMs : Int) (options : Option ScheduleOptions) : Int :=
  match options with
  | none => nowMs
  | some (.afterInMs ms) => nowMs + ms
  | some (.atTime t) => t

/-- Embedding of ScheduledMessageInfo: a pending entry of the in-memory
queue. -/
structure ScheduledMessageInfo (M : Type) where
  message : M
  options : Option ScheduleOptions
  scheduledAt : Int
deriving DecidableEq

/-- Embedding of ScheduledMessage, the shape dequeue returns. -/
structure ScheduledMessage (M : Type) where
  message : M
  options : Option ScheduleOptions
deriving DecidableEq

/-- Embedding of filterReadyMessages: entries whose scheduled instant is at
or before now. -/
def filterReadyMessages {M : Type} (pending : List (ScheduledMessageInfo M))
    (now : Int) : List (ScheduledMessageInfo M) :=
  pending.filter (fun msg => decide (msg.scheduledAt ≤ now))

/-- The mutable state of one MessageScheduler. -/
structure SchedulerState (M : Type) where
  useEmulator : Bool
  pendingMessages : List (ScheduledMessageInfo M)

/-- Embedding of MessageScheduler.schedule: buffered (emulator) mode appends
to the pending queue; native mode publishes to the scheduled topic, which
the returned flag records, and buffers nothing. -/
def scheduleStep {M : Type} (st : SchedulerState M) (message : M)
    (options : Option ScheduleOptions) (nowMs : Int) : SchedulerState M × Bool :=
  let scheduledAt := calculateScheduledTime nowMs options
  if st.useEmulator then
    ({ st with pendingMessages :=
        st.pendingMessages ++ [⟨message, options, scheduledAt⟩] }, false)
  else
    (st, true)

/-- Conversion of a pending entry to the dequeue result shape. -/
def toScheduledMessage {M : Type} (info : ScheduledMessageInfo M) : ScheduledMessage M :=
  ⟨info.message, info.options⟩

/-- Embedding of MessageScheduler.dequeue: native mode returns empty;
buffered mode reads the clock once, returns the ready entries and keeps
exactly the strictly later ones. -/
def dequeue {M : Type} (st : SchedulerState M) (now : Int) :
    List (ScheduledMessage M) × SchedulerState M :=
  if !st.useEmulator then
    ([], st)
  else
    let ready := filterReadyMessages st.pendingMessages now
    let remaining := st.pendingMessages.filter (fun msg => decide (now < msg.scheduledAt))
    (ready.map toScheduledMessage, { st with pendingMessages := remaining })

/-- Strict-after is the Boolean complement of at-or-before. -/
theorem decide_lt_eq_not_decide_le (now x : Int) :
    decide (now < x) = !decide (x ≤ now) := by
  by_cases h : x ≤ now
  · simp [h, not_lt.mpr h]
  · simp [h, not_le.mp h]

/-- Claim C5: in native mode dequeue returns the empty list and leaves the
state untouched; in buffered mode one dequeue call reads the clock once and
partitions the pending queue at scheduledAt at-or-before now inclusively:
it returns exactly the ready partition, the new pending queue holds exactly
the strictly later entries, the two partitions together are a permutation
of the old queue (so no entry is both returned and kept, and none is
lost), an entry scheduled at exactly now is returned, and every kept entry
is strictly later than now. -/
theorem claim5_dequeue {M : Type} (st : SchedulerState M) (now : Int) :
    (st.useEmulator = false → dequeue st now = ([], st))
    ∧ (st.useEmulator = true →
        (dequeue st now).1
            = (filterReadyMessages st.pendingMessages now).map toScheduledMessage
        ∧ (dequeue st now).2.pendingMessages
            = st.pendingMessages.filter (fun msg => decide (now < msg.scheduledAt))
        ∧ (filterReadyMessages st.pendingMessages now
            ++ (dequeue st now).2.pendingMessages).Perm st.pendingMessages
        ∧ (∀ m ∈ st.pendingMessages, m.scheduledAt ≤ now →
            toScheduledMessage m ∈ (dequeue st now).1)
        ∧ (∀ m ∈ (dequeue st now).2.pendingMessages, now < m.scheduledAt)) := by
  constructor
  · intro h
    simp [dequeue, h]
  · intro h
    have hcompl : st.pendingMessages.filter (fun msg => decide (now < msg.scheduledAt))
        = st.pendingMessages.filter (fun msg => !decide (msg.scheduledAt ≤ now)) := by
      apply List.filter_congr
      intro m _
      exact decide_lt_eq_not_decide_le now m.scheduledAt
    refine ⟨by simp [dequeue, h], by simp [dequeue, h], ?_, ?_, ?_⟩
    · have hperm := List.filter_append_perm
        (fun msg : ScheduledMessageInfo M => decide (msg.scheduledAt ≤ now))
        st.pendingMessages
      simp only [dequeue, h, Bool.not_true, filterReadyMessages]
      simpa [hcompl, filterReadyMessages] using hperm
    · intro m hm hle
      simp only [dequeue, h, Bool.not_true, if_neg, ite_false]
      exact List.mem_map_of_mem toScheduledMessage
        (List.mem_filter.mpr ⟨hm, by simpa using hle⟩)
    · intro m hm
      simp only [dequeue, h, Bool.not_true, ite_false] at hm
      have := (List.mem_filter.mp hm).2
      simpa using this

/-- Witness for claim C5: a buffered scheduler holding entries due at 5, 10
and 15 dequeued at 10 returns the first two, including the tie at exactly
10, and keeps the third; a native scheduler returns nothing and is
unchanged. -/
theorem claim5_dequeue_witness :
    (dequeue (⟨true, [⟨(1 : Nat), none, 5⟩, ⟨2, none, 10⟩, ⟨3, none, 15⟩]⟩ :
        SchedulerState Nat) 10).1 = [⟨1, none⟩, ⟨2, none⟩]
    ∧ (dequeue (⟨true, [⟨(1 : Nat), none, 5⟩, ⟨2, none, 10⟩, ⟨3, none, 15⟩]⟩ :
        SchedulerState Nat) 10).2.pendingMessages = [⟨3, none, 15⟩]
    ∧ dequeue (⟨false, []⟩ : SchedulerState Nat) 10 = ([], ⟨false, []⟩) := by
  refine ⟨?_, ?_, ?_⟩
  · exact ((claim5_dequeue (⟨true, [⟨(1 : Nat), none, 5⟩, ⟨2, none, 10⟩, ⟨3, none, 15⟩]⟩ :
      SchedulerState Nat) 10).2 rfl).1.trans (by decide)
  · exact (((claim5_dequeue (⟨true, [⟨(1 : Nat), none, 5⟩, ⟨2, none, 10⟩, ⟨3, none, 15⟩]⟩ :
      SchedulerState Nat) 10).2 rfl).2.1).trans (by decide)
  · exact (claim5_dequeue (⟨false, []⟩ : SchedulerState Nat) 10).1 rfl

/-! ## Provisioner (src/messageBus/topicManager.ts)

getOrCreateTopic and getOrCreateSubscription each perform an existence
check followed by a conditional create, both of which are remote calls that
can reject; the outcomes of those two remote calls are parameters. A
rejection is a thrown value with an optional numeric code and a message
rendering. The returned value is either the resource reference (modelled
as unit) or the thrown wrapped error message. The create-options spreading
of getOrCreateSubscription builds a plain configuration record, cannot
fail, and does not influence the control flow verified here, so it is not
modelled. -/

/-- A value rejected by a remote pub/sub call. -/
structure Thrown where
  code : Option Int
  text : String
deriving DecidableEq

/-- Embedding of getOrCreateTopic: an exists failure propagates wrapped; an
absent topic is created, a create rejection with code 6 (ALREADY_EXISTS) is
swallowed and the topic returned, and any other create rejection is
rethrown and caught by the outer wrap. -/
def getOrCreateTopic (existsOutcome : Except Thrown Bool)
    (createOutcome : Except Thrown Unit) (topicName : String) : Except String Unit :=
  match existsOutcome with
  | .error e =>
    .error ("Failed to get or create topic " ++ topicName ++ ": " ++ e.text)
  | .ok exists_ =>
    if !exists_ then
      match createOutcome with
      | .error createError =>
        if createError.code == some 6 then .ok ()
        else .error ("Failed to get or create topic " ++ topicName ++ ": " ++
          createError.text)
      | .ok _ => .ok ()
    else
      .ok ()

/-- Embedding of getOrCreateSubscription, identical in control flow with the
subscription wording in the wrap. -/
def getOrCreateSubscription (existsOutcome : Except Thrown Bool)
    (createOutcome : Except Thrown Unit) (subscriptionName : String) :
    Except String Unit :=
  match existsOutcome with
  | .error e =>
    .error ("Failed to get or create subscription " ++ subscriptionName ++ ": " ++ e.text)
  | .ok exists_ =>
    if !exists_ then
      match createOutcome with
      | .error createError =>
        if createError.code == some 6 then .ok ()
        else .error ("Failed to get or create subscription " ++ subscriptionName ++ ": " ++
          createError.text)
      | .ok _ => .ok ()
    else
      .ok ()

/-- Claim C8: both provisioners swallow exactly one failure, a create
rejection carrying code 6, returning the resource as success; a create
rejection with any other code propagates wrapped with the resource name, and
a failing existence check propagates wrapped with the resource name. -/
theorem claim8_provisioner (topicName subscriptionName msg : String)
    (c : Option Int) (e : Thrown) (createOutcome : Except Thrown Unit) :
    (getOrCreateTopic (.ok false) (.error ⟨some 6, msg⟩) topicName = .ok ())
    ∧ (getOrCreateSubscription (.ok false) (.error ⟨some 6, msg⟩) subscriptionName
        = .ok ())
    ∧ (c ≠ some 6 →
        getOrCreateTopic (.ok false) (.error ⟨c, msg⟩) topicName
          = .error ("Failed to get or create topic " ++ topicName ++ ": " ++ msg))
    ∧ (c ≠ some 6 →
        getOrCreateSubscription (.ok false) (.error ⟨c, msg⟩) subscriptionName
          = .error ("Failed to get or create subscription " ++ subscriptionName ++
              ": " ++ msg))
    ∧ (getOrCreateTopic (.error e) createOutcome topicName
        = .error ("Failed to get or create topic " ++ topicName ++ ": " ++ e.text))
    ∧ (getOrCreateSubscription (.error e) createOutcome subscriptionName
        = .error ("Failed to get or create subscription " ++ subscriptionName ++
            ": " ++ e.text)) := by
  refine ⟨by simp [getOrCreateTopic], by simp [getOrCreateSubscription], ?_, ?_,
    by simp [getOrCreateTopic], by simp [getOrCreateSubscription]⟩
  · intro hc
    simp [getOrCreateTopic, beq_eq_false_iff_ne.mpr hc]
  · intro hc
    simp [getOrCreateSubscription, beq_eq_false_iff_ne.mpr hc]

/-- Witness for claim C8 with a permission-denied style rejection (code 7)
and a network-failure existence check. -/
theorem claim8_provisioner_witness :
    getOrCreateTopic (.ok false) (.error ⟨some 6, "already exists"⟩) "emmett-cmd-Add"
        = .ok ()
    ∧ getOrCreateTopic (.ok false) (.error ⟨some 7, "permission denied"⟩) "emmett-cmd-Add"
        = .error ("Failed to get or create topic " ++ "emmett-cmd-Add" ++ ": " ++
            "permission denied")
    ∧ getOrCreateSubscription (.error ⟨none, "network down"⟩) (.ok ()) "emmett-cmd-Add-i1"
        = .error ("Failed to get or create subscription " ++ "emmett-cmd-Add-i1" ++
            ": " ++ "network down") := by
  refine ⟨?_, ?_, ?_⟩
  · exact (claim8_provisioner "emmett-cmd-Add" "s" "already exists" none ⟨none, ""⟩
      (.ok ())).1
  · exact (claim8_provisioner "emmett-cmd-Add" "s" "permission denied" (some 7)
      ⟨none, ""⟩ (.ok ())).2.2.1 (by decide)
  · exact (claim8_provisioner "t" "emmett-cmd-Add-i1" "m" none ⟨none, "network down"⟩
      (.ok ())).2.2.2.2.2

end EmmettGPubSub
